import Mathlib

set_option maxRecDepth 8192

/-
Shallow embedding of the ansibug debug-adapter core
(src/ansibug/_debuggee.py, src/ansibug/dap/_types.py,
src/ansibug/_socket_helper.py and the debug strategy plugin).

Python integers are modelled as Int where a wire value may be negative
(the DAP codec) and as Nat where the code only ever produces non-negative
values (breakpoint ids, line numbers parsed from task paths).  Python
dicts that are only ever iterated in insertion order are modelled as
association lists, preserving that order.
-/

/- JSON-like values produced and consumed by the DAP codec in
   src/ansibug/dap/_types.py: Python dicts, lists, strs, ints, bools and
   None. -/
inductive JVal where
  | null : JVal
  | bool (b : Bool) : JVal
  | num (n : Int) : JVal
  | str (s : String) : JVal
  | arr (xs : List JVal) : JVal
  | obj (fields : List (String × JVal)) : JVal

/- Python dict lookup d.get(key), returning the stored value when the key
   is present (the stored value may itself be None, i.e. JVal.null). -/
def getField (fields : List (String × JVal)) (key : String) : Option JVal :=
  (fields.find? (fun p => p.1 == key)).map (fun p => p.2)

/- Python dict lookup d.get(key, dflt). -/
def getFieldD (fields : List (String × JVal)) (key : String) (dflt : JVal) : JVal :=
  (getField fields key).getD dflt

/- Typed readers for the JSON shapes the pack functions emit: an optional
   int/str field is either absent, null, or carries a value of the right
   type; a bool field carries a bool. -/
def readOptInt (fields : List (String × JVal)) (key : String) : Option Int :=
  match getFieldD fields key JVal.null with
  | JVal.num n => some n
  | _ => none

def readOptStr (fields : List (String × JVal)) (key : String) : Option String :=
  match getFieldD fields key JVal.null with
  | JVal.str s => some s
  | _ => none

def readBoolD (fields : List (String × JVal)) (key : String) (dflt : Bool) : Bool :=
  match getField fields key with
  | some (JVal.bool b) => b
  | _ => dflt

def readStrD (fields : List (String × JVal)) (key : String) (dflt : String) : String :=
  match getField fields key with
  | some (JVal.str s) => s
  | _ => dflt

def packOptInt : Option Int → JVal
  | none => JVal.null
  | some n => JVal.num n

def packOptStr : Option String → JVal
  | none => JVal.null
  | some s => JVal.str s

/- A size measure on JSON values, used as recursion fuel for the one
   recursive unpack function (Source).  The recursion of Source.unpack
   only ever descends into strict subvalues, so this fuel is never
   exhausted on any input. -/
mutual
def JVal.size : JVal → Nat
  | JVal.arr xs => 1 + JVal.sizeList xs
  | JVal.obj fs => 1 + JVal.sizeFields fs
  | _ => 1

def JVal.sizeList : List JVal → Nat
  | [] => 0
  | x :: xs => JVal.size x + JVal.sizeList xs

def JVal.sizeFields : List (String × JVal) → Nat
  | [] => 0
  | p :: ps => JVal.size p.2 + JVal.sizeFields ps
end

/- dap._types.Checksum -/
structure Checksum where
  algorithm : String
  checksum : String
deriving DecidableEq, Repr

def Checksum.pack (c : Checksum) : JVal :=
  JVal.obj [("algorithm", JVal.str c.algorithm), ("checksum", JVal.str c.checksum)]

/- Checksum.unpack reads body with mandatory keys; a missing key or a
   non-dict body raises in Python, modelled as none. -/
def Checksum.unpack : JVal → Option Checksum
  | JVal.obj fields =>
    match getField fields "algorithm", getField fields "checksum" with
    | some (JVal.str a), some (JVal.str c) => some { algorithm := a, checksum := c }
    | _, _ => none
  | _ => none

/- dap._types.Source.  The Python dataclass is recursive through the
   sources field, hence an inductive type; adapter_data is t.Any and is
   modelled as an arbitrary JSON value. -/
inductive Source where
  | mk (name : Option String) (path : Option String) (source_reference : Int)
      (presentation_hint : String) (origin : Option String) (sources : List Source)
      (adapter_data : JVal) (checksums : List Checksum)

def Source.path : Source → Option String
  | Source.mk _ p _ _ _ _ _ _ => p

mutual
def Source.pack : Source → JVal
  | Source.mk name path ref hint origin sources adapterData checksums =>
    JVal.obj [("name", packOptStr name), ("path", packOptStr path),
      ("sourceReference", JVal.num ref), ("presentationHint", JVal.str hint),
      ("origin", packOptStr origin), ("sources", JVal.arr (Source.packList sources)),
      ("adapterData", adapterData),
      ("checksums", JVal.arr (checksums.map Checksum.pack))]

def Source.packList : List Source → List JVal
  | [] => []
  | s :: rest => Source.pack s :: Source.packList rest
end

/- Source.unpack, with fuel bounding the recursion depth (see JVal.size).
   body.get("sourceReference", None) or 0 collapses null/missing/0 to 0. -/
def Source.unpackFuel : Nat → JVal → Option Source
  | 0, _ => none
  | fuel + 1, JVal.obj fields =>
    match getFieldD fields "sources" (JVal.arr []) with
    | JVal.arr xs =>
      match xs.mapM (Source.unpackFuel fuel) with
      | some sources =>
        match getFieldD fields "checksums" (JVal.arr []) with
        | JVal.arr cs =>
          match cs.mapM Checksum.unpack with
          | some checksums =>
            some (Source.mk (readOptStr fields "name") (readOptStr fields "path")
              ((readOptInt fields "sourceReference").getD 0)
              (readStrD fields "presentationHint" "normal")
              (readOptStr fields "origin") sources
              (getFieldD fields "adapterData" JVal.null) checksums)
          | none => none
        | _ => none
      | none => none
    | _ => none
  | _ + 1, _ => none

def Source.unpack (j : JVal) : Option Source :=
  Source.unpackFuel (JVal.size j) j

/- dap._types.Breakpoint -/
structure Breakpoint where
  id : Option Int := none
  verified : Bool := false
  message : Option String := none
  source : Option Source := none
  line : Option Int := none
  column : Option Int := none
  end_line : Option Int := none
  end_column : Option Int := none
  instruction_reference : Option String := none
  offset : Option Int := none

def Breakpoint.pack (b : Breakpoint) : JVal :=
  JVal.obj [("id", packOptInt b.id), ("verified", JVal.bool b.verified),
    ("message", packOptStr b.message),
    ("source", match b.source with | some s => s.pack | none => JVal.null),
    ("line", packOptInt b.line), ("column", packOptInt b.column),
    ("endLine", packOptInt b.end_line), ("endColumn", packOptInt b.end_column),
    ("instructionReference", packOptStr b.instruction_reference),
    ("offset", packOptInt b.offset)]

/- Breakpoint.unpack: the source field is unpacked whenever the source KEY
   is present, regardless of its value; Source.unpack of a null value
   raises AttributeError in Python, modelled as none propagating. -/
def Breakpoint.unpack (j : JVal) : Option Breakpoint :=
  match j with
  | JVal.obj fields =>
    let rest := fun (src : Option Source) =>
      some { id := readOptInt fields "id", verified := readBoolD fields "verified" false,
             message := readOptStr fields "message", source := src,
             line := readOptInt fields "line", column := readOptInt fields "column",
             end_line := readOptInt fields "endLine",
             end_column := readOptInt fields "endColumn",
             instruction_reference := readOptStr fields "instructionReference",
             offset := readOptInt fields "offset" : Breakpoint }
    match getField fields "source" with
    | some srcJ =>
      match Source.unpack srcJ with
      | some s => rest (some s)
      | none => none
    | none => rest none
  | _ => none

/- dap._types.SourceBreakpoint.  Requested lines are client line numbers,
   non-negative in every flow of this program. -/
structure SourceBreakpoint where
  line : Nat
  column : Option Nat := none
  condition : Option String := none
  hit_condition : Option String := none
  log_message : Option String := none
deriving DecidableEq, Repr

/- _debuggee.AnsibleLineBreakpoint -/
structure AnsibleLineBreakpoint where
  id : Nat
  source : Source
  source_breakpoint : SourceBreakpoint
  breakpoint : Breakpoint

def AnsibleLineBreakpoint.path (b : AnsibleLineBreakpoint) : String :=
  b.source.path.getD ""

/- The mutable state of the AnsibleDebugger singleton that the breakpoint
   claims exercise: _connected, _breakpoints (dict id to breakpoint,
   iterated in insertion order), _breakpoint_counter and _source_info. -/
structure AnsibleDebugger where
  connected : Bool := false
  breakpoints : List AnsibleLineBreakpoint := []
  breakpoint_counter : Nat := 1
  source_info : List (String × List (Option Nat)) := []

def lookupSourceInfo (si : List (String × List (Option Nat))) (path : String) :
    Option (List (Option Nat)) :=
  (si.find? (fun p => p.1 == path)).map (fun p => p.2)

def setSourceInfo (si : List (String × List (Option Nat))) (path : String)
    (lines : List (Option Nat)) : List (String × List (Option Nat)) :=
  if (si.find? (fun p => p.1 == path)).isSome then
    si.map (fun p => if p.1 == path then (p.1, lines) else p)
  else
    si ++ [(path, lines)]

/- AnsibleDebugger.get_breakpoint: returns None while no client is
   connected, else the first registered breakpoint whose path matches and
   whose resolved line range contains the queried line, a missing bound
   imposing no constraint. -/
def AnsibleDebugger.get_breakpoint (st : AnsibleDebugger) (path : String) (line : Nat) :
    Option AnsibleLineBreakpoint :=
  if !st.connected then
    none
  else
    st.breakpoints.find? (fun b =>
      b.path == path &&
      (match b.breakpoint.line with
       | none => true
       | some l => decide (l ≤ (line : Int))) &&
      (match b.breakpoint.end_line with
       | none => true
       | some e => decide ((line : Int) ≤ e)))

/- The backward scan of the resolution algorithm:
   while line_type is None: start_line -= 1; line_type = lines[start_line].
   In every map the code builds, index 0 holds 0 (file start sentinel), so
   the scan never runs past index 0. -/
def resolveStart (lines : List (Option Nat)) : Nat → Nat
  | 0 => 0
  | s + 1 => if lines.getD (s + 1) none = none then resolveStart lines s else s + 1

/- The forward scan of the resolution algorithm:
   while end_line < len(lines) and lines[end_line] is None: end_line += 1.
   The fuel bounds the iteration count; the loop runs at most
   len(lines) - e times, so fuel len(lines) - e is never exhausted. -/
def resolveEndFuel (lines : List (Option Nat)) : Nat → Nat → Nat
  | 0, e => e
  | fuel + 1, e =>
    if e < lines.length ∧ lines.getD e none = none then resolveEndFuel lines fuel (e + 1)
    else e

def resolveEnd (lines : List (Option Nat)) (e : Nat) : Nat :=
  resolveEndFuel lines (lines.length - e) e

structure BreakpointResolution where
  verified : Bool
  message : Option String
  line : Nat
  end_line : Nat
deriving DecidableEq, Repr

/- The breakpoint resolution computed inline by the SetBreakpointsRequest
   handler in AnsibleDebugger.process_message (lines 570-588 of
   _debuggee.py).  Note the forward scan starts from
   min(requested, len - 1) + 1, computed before the backward scan. -/
def setBreakpointsResolve (source_info : List (Option Nat)) (line : Nat) :
    BreakpointResolution :=
  let start0 := min line (source_info.length - 1)
  let end0 := start0 + 1
  let start_line := resolveStart source_info start0
  let line_type := source_info.getD start_line none
  let end1 := resolveEnd source_info end0
  let end_line := min (end1 - 1) source_info.length
  if line_type = some 0 then
    { verified := false, message := some "Breakpoint cannot be set here.",
      line := start_line, end_line := end_line }
  else
    { verified := true, message := none, line := start_line, end_line := end_line }

/- The breakpoint re-resolution computed inline by
   AnsibleDebugger.register_path_breakpoint (lines 375-393 of
   _debuggee.py); textually the same algorithm as the handler. -/
def registerResolve (file_lines : List (Option Nat)) (line : Nat) :
    BreakpointResolution :=
  let start0 := min line (file_lines.length - 1)
  let end0 := start0 + 1
  let start_line := resolveStart file_lines start0
  let line_type := file_lines.getD start_line none
  let end1 := resolveEnd file_lines end0
  let end_line := min (end1 - 1) file_lines.length
  if line_type = some 0 then
    { verified := false, message := some "Breakpoint cannot be set here.",
      line := start_line, end_line := end_line }
  else
    { verified := true, message := none, line := start_line, end_line := end_line }

/- The resolution algorithm as the specification words it
   (its numbered steps 1-4): start = min(L, len(V) - 1); while V[start] is
   a continuation, decrement start; end = start + 1 (the scanned-back
   start); while end < len(V) and V[end] is a continuation, increment end;
   end = min(end - 1, len(V)); unverified with message exactly when
   V[start] is unbreakable (entry 0). -/
def specResolve (V : List (Option Nat)) (L : Nat) : BreakpointResolution :=
  let start := resolveStart V (min L (V.length - 1))
  let e := resolveEnd V (start + 1)
  let end_line := min (e - 1) V.length
  if V.getD start none = some 0 then
    { verified := false, message := some "Breakpoint cannot be set here.",
      line := start, end_line := end_line }
  else
    { verified := true, message := none, line := start, end_line := end_line }

/- Whether a breakpoint replaces its stored resolution and a changed
   event is sent: the Python or-chain
   verified != v or line != start_line or end_line != end_line. -/
def resolutionChanged (b : AnsibleLineBreakpoint) (r : BreakpointResolution) : Prop :=
  b.breakpoint.verified ≠ r.verified ∨ b.breakpoint.line ≠ some (r.line : Int) ∨
    b.breakpoint.end_line ≠ some (r.end_line : Int)

instance (b : AnsibleLineBreakpoint) (r : BreakpointResolution) :
    Decidable (resolutionChanged b r) :=
  inferInstanceAs (Decidable (b.breakpoint.verified ≠ r.verified ∨
    b.breakpoint.line ≠ some (r.line : Int) ∨
    b.breakpoint.end_line ≠ some (r.end_line : Int)))

/- The replacement dap.Breakpoint built by register_path_breakpoint when a
   resolution changed. -/
def changedBreakpoint (b : AnsibleLineBreakpoint) (r : BreakpointResolution) : Breakpoint :=
  { id := some (b.id : Int), verified := r.verified, message := r.message,
    source := some b.source, line := some (r.line : Int),
    end_line := some (r.end_line : Int) }

/- The line-validity list after learn: setdefault(path, [0]), extend with
   None up to index line, then file_lines[line] = bp_type.  A Python list
   multiplied by a negative count is empty, matching Nat subtraction. -/
def learnedLines (st : AnsibleDebugger) (path : String) (line : Nat) (bp_type : Nat) :
    List (Option Nat) :=
  let file_lines := (lookupSourceInfo st.source_info path).getD [some 0]
  (file_lines ++ List.replicate (1 + line - file_lines.length) none).set line (some bp_type)

/- One step of the re-resolution loop of register_path_breakpoint: the
   updated registry entry plus the changed-event payload, if any. -/
def reResolveOne (file_lines : List (Option Nat)) (path : String)
    (b : AnsibleLineBreakpoint) : AnsibleLineBreakpoint × Option Breakpoint :=
  if b.path = path then
    let r := registerResolve file_lines b.source_breakpoint.line
    if resolutionChanged b r then
      ({ b with breakpoint := changedBreakpoint b r }, some (changedBreakpoint b r))
    else (b, none)
  else (b, none)

/- AnsibleDebugger.register_path_breakpoint: updates _source_info, then
   re-resolves every breakpoint on the path, sending a changed
   BreakpointEvent for each whose resolution differs.  The second
   component collects the event payloads in send order. -/
def register_path_breakpoint (st : AnsibleDebugger) (path : String) (line : Nat)
    (bp_type : Nat) : AnsibleDebugger × List Breakpoint :=
  let file_lines := learnedLines st path line bp_type
  let updated := st.breakpoints.map (reResolveOne file_lines path)
  ({ st with source_info := setSourceInfo st.source_info path file_lines,
             breakpoints := updated.map Prod.fst },
   updated.filterMap Prod.snd)

/- dap.SetBreakpointsRequest, restricted to the fields the handler reads. -/
structure SetBreakpointsRequest where
  seq : Nat
  source : Source
  breakpoints : List SourceBreakpoint
  source_modified : Bool := false

/- Python truthiness of self._source_info.get(source_path, None):
   falsy when the key is absent or the list is empty. -/
def sourceInfoFalsy : Option (List (Option Nat)) → Bool
  | none => true
  | some [] => true
  | some (_ :: _) => false

/- The dap.Breakpoint built for one SourceBreakpoint of a
   SetBreakpointsRequest (the three branches of the handler loop). -/
def makeBreakpoint (source : Source) (source_modified : Bool)
    (source_info : Option (List (Option Nat))) (bp_id : Nat) (sb : SourceBreakpoint) :
    Breakpoint :=
  if source_modified then
    { id := some (bp_id : Int), verified := false,
      message := some "Cannot set breakpoint on a modified source.",
      source := some source }
  else if sourceInfoFalsy source_info then
    { id := some (bp_id : Int), verified := false,
      message := some "File has not been loaded by Ansible, cannot detect breakpoints yet.",
      source := some source, line := some (sb.line : Int) }
  else
    let r := setBreakpointsResolve (source_info.getD []) sb.line
    { id := some (bp_id : Int), verified := r.verified, message := r.message,
      source := some source, line := some (r.line : Int),
      end_line := some (r.end_line : Int) }

/- The handler loop over msg.breakpoints: returns the final counter, the
   breakpoints persisted into the registry (skipped when source_modified)
   and the response list, both in request order. -/
def setBreakpointsLoop (source : Source) (source_modified : Bool)
    (source_info : Option (List (Option Nat))) :
    Nat → List SourceBreakpoint → Nat × List AnsibleLineBreakpoint × List Breakpoint
  | counter, [] => (counter, [], [])
  | counter, sb :: rest =>
    let bp := makeBreakpoint source source_modified source_info counter sb
    let next := setBreakpointsLoop source source_modified source_info (counter + 1) rest
    if source_modified then
      (next.1, next.2.1, bp :: next.2.2)
    else
      (next.1,
       { id := counter, source := source, source_breakpoint := sb, breakpoint := bp }
         :: next.2.1,
       bp :: next.2.2)

/- The SetBreakpointsRequest handler of AnsibleDebugger.process_message:
   drops every breakpoint registered against the request's exact path,
   then registers and resolves the requested ones.  The second component
   is the breakpoints list of the SetBreakpointsResponse. -/
def processSetBreakpoints (st : AnsibleDebugger) (msg : SetBreakpointsRequest) :
    AnsibleDebugger × List Breakpoint :=
  let source_path := msg.source.path.getD ""
  let source_info := lookupSourceInfo st.source_info source_path
  let kept := st.breakpoints.filter (fun b => b.path != source_path)
  let res := setBreakpointsLoop msg.source msg.source_modified source_info
    st.breakpoint_counter msg.breakpoints
  ({ st with breakpoints := kept ++ res.2.1, breakpoint_counter := res.1 }, res.2.2)

/- Ansible task objects as the strategy plugin sees them: a _uuid, whether
   the node is a Task instance (blocks are not), the action name, and the
   _parent chain (root has parent None). -/
inductive PTask where
  | root (uuid : Nat) (is_task : Bool) (action : String)
  | child (uuid : Nat) (is_task : Bool) (action : String) (parent : PTask)

def PTask.uuid : PTask → Nat
  | PTask.root u _ _ => u
  | PTask.child u _ _ _ => u

def PTask.is_task : PTask → Bool
  | PTask.root _ t _ => t
  | PTask.child _ t _ _ => t

def PTask.action : PTask → String
  | PTask.root _ _ a => a
  | PTask.child _ _ a _ => a

/- while task := task._parent: if isinstance(task, Task): break
   The nearest strict ancestor that is a Task instance, if any. -/
def parentTask : PTask → Option PTask
  | PTask.root _ _ _ => none
  | PTask.child _ _ _ p => if p.is_task then some p else parentTask p

/- Whether some strict ancestor of the task carries the given _uuid. -/
def ancestorHasUuid : PTask → Nat → Bool
  | PTask.root _ _ _, _ => false
  | PTask.child _ _ _ p, u => if p.uuid = u then true else ancestorHasUuid p u

/- strategy.debug.AnsibleThread, restricted to the stepping state. -/
structure AnsibleThread where
  id : Nat
  stepping_type : Option String := none
  stepping_task : Option PTask := none

/- AnsibleThread.break_step_over: requires mode over and a recorded
   stepping task; compares the uuids of the nearest Task ancestors of the
   new task and of the stepping task (None on both sides compares True,
   via getattr(None, uuid, None)). -/
def AnsibleThread.break_step_over (thread : AnsibleThread) (task : PTask) : Bool :=
  match thread.stepping_type, thread.stepping_task with
  | some "over", some stask =>
    ((parentTask task).map PTask.uuid) == ((parentTask stask).map PTask.uuid)
  | _, _ => false

/- AnsibleThread.break_step_out: breaks on the first task that does not
   have the stepping task among its ancestors. -/
def AnsibleThread.break_step_out (thread : AnsibleThread) (task : PTask) : Bool :=
  match thread.stepping_type, thread.stepping_task with
  | some "out", some stask => !(ancestorHasUuid task stask.uuid)
  | _, _ => false

/- AnsibleThread.break_step_in: the first task boundary breaks. -/
def AnsibleThread.break_step_in (thread : AnsibleThread) : Bool :=
  thread.stepping_type == some "in"

inductive StoppedReason where
  | step
  | breakpointHit
deriving DecidableEq, Repr

/- The condition filter of AnsibleDebugState.process_task: a breakpoint
   with a truthy condition string keeps firing only if the Conditional
   evaluates truthy; an AnsibleError during evaluation is caught and the
   breakpoint treated as a false condition.  cond_eval is the oracle for
   Templar-based evaluation, error meaning AnsibleError was raised. -/
def evaluatedCondition (cond_eval : String → Except Unit Bool)
    (b : AnsibleLineBreakpoint) : Option String → Option AnsibleLineBreakpoint
  | some c =>
    if c = "" then some b
    else
      match cond_eval c with
      | Except.ok true => some b
      | Except.ok false => none
      | Except.error _ => none
  | none => some b

def evaluatedBreakpoint (cond_eval : String → Except Unit Bool) :
    Option AnsibleLineBreakpoint → Option AnsibleLineBreakpoint
  | some b => evaluatedCondition cond_eval b b.source_breakpoint.condition
  | none => none

/- The stop decision of AnsibleDebugState.process_task at a task boundary:
   which StoppedEvent reason, if any, the thread blocks with.  The
   breakpoint branch requires the thread not to be in step-out mode. -/
def processTaskStop (st : AnsibleDebugger) (thread : AnsibleThread) (task : PTask)
    (path : String) (line : Nat) (cond_eval : String → Except Unit Bool) :
    Option StoppedReason :=
  let line_breakpoint := evaluatedBreakpoint cond_eval (st.get_breakpoint path line)
  if thread.break_step_over task then some StoppedReason.step
  else if thread.break_step_out task then some StoppedReason.step
  else if thread.break_step_in then some StoppedReason.step
  else if thread.stepping_type ≠ some "out" ∧ line_breakpoint.isSome then
    some StoppedReason.breakpointHit
  else none

/- strategy.debug.AnsibleDebugState, restricted to the stepping-wait map
   _waiting_threads (dict thread id to requested stepping action). -/
structure AnsibleDebugState where
  waiting_threads : List (Nat × Option String) := []
deriving DecidableEq, Repr

/- AnsibleDebugState.ended: clears _waiting_threads and notifies the
   condition variable. -/
def AnsibleDebugState.ended (s : AnsibleDebugState) : AnsibleDebugState :=
  { s with waiting_threads := [] }

/- The predicate a blocked thread waits on in process_task:
   wait_for(lambda: tid in self._waiting_threads).  wait_for returns only
   once this is true. -/
def waitingPredicate (s : AnsibleDebugState) (tid : Nat) : Bool :=
  (s.waiting_threads.find? (fun p => p.1 == tid)).isSome

/- Python dict assignment self._waiting_threads[tid] = action. -/
def setWaiting (s : AnsibleDebugState) (tid : Nat) (action : Option String) :
    AnsibleDebugState :=
  if (s.waiting_threads.find? (fun p => p.1 == tid)).isSome then
    { s with waiting_threads :=
        s.waiting_threads.map (fun p => if p.1 == tid then (p.1, action) else p) }
  else
    { s with waiting_threads := s.waiting_threads ++ [(tid, action)] }

/- AnsibleDebugState._continue: records the requested action for each
   thread id and notifies the condition variable. -/
def continueThreads (s : AnsibleDebugState) (thread_ids : List Nat)
    (action : Option String) : AnsibleDebugState :=
  thread_ids.foldl (fun acc tid => setWaiting acc tid action) s

/- _socket_helper.SocketCancellationToken state: the registered abort
   callbacks (by id), the id counter and the cancelled latch. -/
structure SocketCancellationToken where
  cancel_funcs : List Nat := []
  cancel_id : Nat := 0
  cancelled : Bool := false
deriving DecidableEq, Repr

/- SocketCancellationToken.cancel: sets the latch, runs and clears every
   registered abort callback. -/
def SocketCancellationToken.cancel (tok : SocketCancellationToken) :
    SocketCancellationToken :=
  { tok with cancelled := true, cancel_funcs := [] }

/- Entering with_cancel: raises CancelledError if already cancelled, else
   registers the abort callback under a fresh id.  The token state during
   the guarded operation always carries the operation's own entry. -/
def withCancelEnter (tok : SocketCancellationToken) :
    Option (SocketCancellationToken × Nat) :=
  if tok.cancelled then none
  else
    some
      ({ tok with
          cancel_funcs := tok.cancel_funcs ++ [tok.cancel_id],
          cancel_id := tok.cancel_id + 1 },
       tok.cancel_id)

inductive SockFailure where
  | cancelledError
  | osError
deriving DecidableEq, Repr

/- SocketCancellationToken.sendall: on OSError it raises CancelledError
   when self._cancel_funcs is non-empty and re-raises the OSError
   otherwise; on success it raises CancelledError if cancelled.  tok is
   the token state at the moment the error is handled. -/
def sendallOutcome (tok : SocketCancellationToken) (os_error : Bool) :
    Except SockFailure Unit :=
  if os_error then
    if tok.cancel_funcs ≠ [] then Except.error SockFailure.cancelledError
    else Except.error SockFailure.osError
  else if tok.cancelled then Except.error SockFailure.cancelledError
  else Except.ok ()

/- SocketCancellationToken.recv_into: an OSError propagates unchanged; a
   read that completes after cancellation raises CancelledError. -/
def recvIntoOutcome (tok : SocketCancellationToken) (os_error : Bool) :
    Except SockFailure Unit :=
  if os_error then Except.error SockFailure.osError
  else if tok.cancelled then Except.error SockFailure.cancelledError
  else Except.ok ()

/- SocketCancellationToken.accept and .connect: on OSError they raise
   CancelledError when self._cancelled is set, else re-raise. -/
def acceptOutcome (tok : SocketCancellationToken) (os_error : Bool) :
    Except SockFailure Unit :=
  if os_error then
    if tok.cancelled then Except.error SockFailure.cancelledError
    else Except.error SockFailure.osError
  else Except.ok ()

/- Concrete scenario values. -/

def srcMain : Source :=
  Source.mk none (some "main.yml") 0 "normal" none [] JVal.null []

/- A breakpoint at line 10 of a path with no line information yet, exactly
   as the SetBreakpoints handler stores it. -/
def bpUnverified : AnsibleLineBreakpoint :=
  { id := 1, source := srcMain, source_breakpoint := { line := 10 },
    breakpoint :=
      { id := some 1, verified := false,
        message := some "File has not been loaded by Ansible, cannot detect breakpoints yet.",
        source := some srcMain, line := some 10 } }

def stUnverified : AnsibleDebugger :=
  { connected := true, breakpoints := [bpUnverified], breakpoint_counter := 2,
    source_info := [] }

def msgMain : SetBreakpointsRequest :=
  { seq := 5, source := srcMain, breakpoints := [{ line := 10 }] }

def idleThread : AnsibleThread := { id := 2 }

def leafTask : PTask := PTask.root 100 true "command"

/- A condition oracle for which every evaluation raises AnsibleError. -/
def noEval : String → Except Unit Bool := fun _ => Except.error ()

/- A verified conditional breakpoint on main.yml line 10. -/
def bpConditioned : AnsibleLineBreakpoint :=
  { id := 1, source := srcMain,
    source_breakpoint := { line := 10, condition := some "x > 1" },
    breakpoint := { id := some 1, verified := true, source := some srcMain,
                    line := some 10, end_line := some 10 } }

def stConditioned : AnsibleDebugger :=
  { connected := true, breakpoints := [bpConditioned], breakpoint_counter := 2,
    source_info := [("main.yml",
      [some 0, none, none, none, none, none, none, none, none, none, some 1])] }

/- The token state right after one guarded operation registered itself. -/
def tokRegistered : SocketCancellationToken :=
  { cancel_funcs := [0], cancel_id := 1, cancelled := false }

def bpWithSource : Breakpoint :=
  { id := some 1, verified := true, source := some srcMain, line := some 10 }

/- Supporting lemmas about the two scan loops. -/

theorem resolveStart_le (V : List (Option Nat)) : ∀ k, resolveStart V k ≤ k := by
  intro k
  induction k with
  | zero => simp [resolveStart]
  | succ n ih =>
    simp only [resolveStart]
    split
    · omega
    · omega

theorem resolveStart_gap (V : List (Option Nat)) :
    ∀ k j, resolveStart V k < j → j ≤ k → V.getD j none = none := by
  intro k
  induction k with
  | zero =>
    intro j h1 h2
    omega
  | succ n ih =>
    intro j h1 h2
    by_cases hv : V.getD (n + 1) none = none
    · rw [resolveStart, if_pos hv] at h1
      rcases Nat.lt_or_ge j (n + 1) with hj | hj
      · exact ih j h1 (by omega)
      · have : j = n + 1 := by omega
        rw [this]
        exact hv
    · rw [resolveStart, if_neg hv] at h1
      omega

theorem resolveEndFuel_stop (V : List (Option Nat)) (fuel e : Nat)
    (h : ¬(e < V.length ∧ V.getD e none = none)) : resolveEndFuel V fuel e = e := by
  cases fuel with
  | zero => rfl
  | succ n => rw [resolveEndFuel, if_neg h]

theorem resolveEnd_of_none (V : List (Option Nat)) (e : Nat) (he : e < V.length)
    (hv : V.getD e none = none) : resolveEnd V e = resolveEnd V (e + 1) := by
  unfold resolveEnd
  have hfuel : V.length - e = (V.length - (e + 1)) + 1 := by omega
  rw [hfuel, resolveEndFuel, if_pos ⟨he, hv⟩]

theorem resolveEnd_congr (V : List (Option Nat)) :
    ∀ (d a b : Nat), b - a = d → a ≤ b → b < V.length →
      (∀ j, a < j → j ≤ b → V.getD j none = none) →
      resolveEnd V (a + 1) = resolveEnd V (b + 1) := by
  intro d
  induction d with
  | zero =>
    intro a b hd hab _ _
    have hab' : a = b := by omega
    rw [hab']
  | succ n ih =>
    intro a b hd hab hb hnone
    have h1 : V.getD (a + 1) none = none := hnone (a + 1) (by omega) (by omega)
    have h2 : a + 1 < V.length := by omega
    rw [resolveEnd_of_none V (a + 1) h2 h1]
    exact ih (a + 1) b (by omega) (by omega) hb (fun j hj1 hj2 => hnone j (by omega) hj2)

/-- Claim C1: for a non-empty line-validity sequence (as built by the code,
with the unbreakable file-start sentinel at index 0), the resolution
computed inline by the SetBreakpoints handler and the one computed by the
post-learn re-resolution in register_path_breakpoint both equal the
specification's algorithm (start = min(L, len(V)-1) scanned back over
continuations; end scanned forward from start+1 over continuations, then
min(end-1, len(V))), and the result is unverified with message
"Breakpoint cannot be set here." exactly when V[start] is unbreakable,
otherwise verified with no message, with line = start and end_line = end. -/
theorem claim_C1 (V : List (Option Nat)) (L : Nat)
    (h0 : V.head? = some (some 0)) :
    setBreakpointsResolve V L = specResolve V L ∧
    registerResolve V L = specResolve V L ∧
    ((specResolve V L).verified = false ↔
      V.getD (resolveStart V (min L (V.length - 1))) none = some 0) ∧
    ((specResolve V L).message =
      if V.getD (resolveStart V (min L (V.length - 1))) none = some 0 then
        some "Breakpoint cannot be set here."
      else none) ∧
    (specResolve V L).line = resolveStart V (min L (V.length - 1)) ∧
    (specResolve V L).end_line =
      min (resolveEnd V (resolveStart V (min L (V.length - 1)) + 1) - 1) V.length := by
  have hlen : 0 < V.length := by
    cases V with
    | nil => simp at h0
    | cons x xs => simp
  have hs0 : min L (V.length - 1) < V.length := by omega
  have hstart_le := resolveStart_le V (min L (V.length - 1))
  have hEnd : resolveEnd V (resolveStart V (min L (V.length - 1)) + 1) =
      resolveEnd V (min L (V.length - 1) + 1) :=
    resolveEnd_congr V _ _ _ rfl hstart_le hs0
      (fun j hj1 hj2 => resolveStart_gap V _ j hj1 hj2)
  refine ⟨?_, ?_, ?_, ?_, ?_, ?_⟩
  · simp only [setBreakpointsResolve, specResolve, hEnd]
  · simp only [registerResolve, specResolve, hEnd]
  · simp only [specResolve]
    by_cases h : V.getD (resolveStart V (min L (V.length - 1))) none = some 0
    · rw [if_pos h]
      exact iff_of_true rfl h
    · rw [if_neg h]
      constructor
      · intro hfalse
        exact absurd hfalse (by simp)
      · intro hc
        exact absurd hc h
  · simp only [specResolve]
    by_cases h : V.getD (resolveStart V (min L (V.length - 1))) none = some 0
    · rw [if_pos h, if_pos h]
    · rw [if_neg h, if_neg h]
  · simp only [specResolve]
    by_cases h : V.getD (resolveStart V (min L (V.length - 1))) none = some 0
    · rw [if_pos h]
    · rw [if_neg h]
  · simp only [specResolve]
    by_cases h : V.getD (resolveStart V (min L (V.length - 1))) none = some 0
    · rw [if_pos h]
    · rw [if_neg h]

/-- Witness for claim C1 at the concrete validity sequence
[0, None, 1, None] and requested line 3. -/
theorem claim_C1_witness :
    ([some 0, none, some 1, none] : List (Option Nat)).head? = some (some 0) ∧
    setBreakpointsResolve [some 0, none, some 1, none] 3 =
      specResolve [some 0, none, some 1, none] 3 :=
  ⟨rfl, (claim_C1 [some 0, none, some 1, none] 3 rfl).1⟩

/-- Claim C2 (code-bug evidence): AnsibleDebugState.ended clears the
_waiting_threads map, but a thread blocked in process_task waits on the
predicate tid in _waiting_threads, which is false for every thread after
the clear, so ended never releases a blocked thread; by contrast
_continue (the path a continue or step command takes) makes the predicate
true.  The wait therefore does not return on session end, contradicting
the claim. -/
theorem claim_C2 :
    (∀ (s : AnsibleDebugState) (tid : Nat),
      waitingPredicate (AnsibleDebugState.ended s) tid = false) ∧
    waitingPredicate (continueThreads { } [2] none) 2 = true := by
  constructor
  · intro s tid
    rfl
  · rfl

/-- Claim C7 (code-bug evidence): Breakpoint.pack always emits a source
key (null when the breakpoint has no source) while Breakpoint.unpack
unpacks the source field whenever the key is present, so
unpack(pack(x)) crashes (AttributeError on None) for every Breakpoint
whose source is unpopulated, including the default Breakpoint; with a
populated source the round trip succeeds. -/
theorem claim_C7 :
    Breakpoint.unpack (Breakpoint.pack { }) = none ∧
    Breakpoint.unpack (Breakpoint.pack bpWithSource) = some bpWithSource := by
  constructor
  · rfl
  · rfl

/-- Claim C8 (code-bug evidence): sendall tests self._cancel_funcs (always
non-empty during an uncancelled operation, empty after cancel() clears
the registry) where accept, connect and recv test self._cancelled, so for
send the mapping is exactly inverted: a peer OSError with no cancellation
is raised as CancelledError and a cancelled in-flight send re-raises the
generic OSError. -/
theorem claim_C8 :
    withCancelEnter { } = some (tokRegistered, 0) ∧
    sendallOutcome tokRegistered true = Except.error SockFailure.cancelledError ∧
    sendallOutcome tokRegistered.cancel true = Except.error SockFailure.osError ∧
    acceptOutcome tokRegistered true = Except.error SockFailure.osError ∧
    acceptOutcome tokRegistered.cancel true = Except.error SockFailure.cancelledError ∧
    recvIntoOutcome tokRegistered true = Except.error SockFailure.osError ∧
    recvIntoOutcome tokRegistered.cancel false = Except.error SockFailure.cancelledError := by
  refine ⟨rfl, ?_, ?_, rfl, rfl, rfl, rfl⟩
  · simp [sendallOutcome, tokRegistered]
  · simp [sendallOutcome, tokRegistered, SocketCancellationToken.cancel]

/-- Claim C3 counterexample: an unverified breakpoint fires.  In a state
holding the unverified breakpoint the handler stores for a not-yet-loaded
file (line 10, no end_line), a task boundary at that path and line stops
with reason breakpoint even though the matched breakpoint is unverified:
get_breakpoint never consults the verified flag. -/
theorem claim_C3_counterexample :
    processTaskStop stUnverified idleThread leafTask "main.yml" 10 noEval =
      some StoppedReason.breakpointHit ∧
    (stUnverified.get_breakpoint "main.yml" 10).map
      (fun b => b.breakpoint.verified) = some false := by
  constructor
  · rfl
  · rfl

theorem evaluatedBreakpoint_isSome (ce : String → Except Unit Bool)
    (lb : Option AnsibleLineBreakpoint)
    (h : (evaluatedBreakpoint ce lb).isSome = true) :
    ∃ b, lb = some b ∧ evaluatedBreakpoint ce (some b) = some b := by
  cases lb with
  | none => simp [evaluatedBreakpoint] at h
  | some b =>
    refine ⟨b, rfl, ?_⟩
    simp only [evaluatedBreakpoint] at h ⊢
    cases hc : b.source_breakpoint.condition with
    | none => simp [evaluatedCondition]
    | some c =>
      rw [hc] at h
      simp only [evaluatedCondition] at h ⊢
      by_cases hce : c = ""
      · rw [if_pos hce]
      · rw [if_neg hce] at h ⊢
        cases hec : ce c with
        | ok bv =>
          rw [hec] at h
          cases bv with
          | false => exact Bool.noConfusion h
          | true => rfl
        | error e =>
          rw [hec] at h
          exact Bool.noConfusion h

/-- Claim C3 amended: at a task boundary a thread transitions to Stopped
with reason breakpoint exactly on the code's criteria: the thread is not
in step-out mode and get_breakpoint matched a breakpoint on the task's
path and line whose optional condition did not evaluate false or fail;
the breakpoint's verified flag is not consulted, so an unverified
breakpoint whose stored range covers the task's line can fire. -/
theorem claim_C3_amended (st : AnsibleDebugger) (thread : AnsibleThread) (task : PTask)
    (path : String) (line : Nat) (cond_eval : String → Except Unit Bool)
    (h : processTaskStop st thread task path line cond_eval =
      some StoppedReason.breakpointHit) :
    thread.stepping_type ≠ some "out" ∧
    ∃ b, st.get_breakpoint path line = some b ∧
      evaluatedBreakpoint cond_eval (some b) = some b := by
  simp only [processTaskStop] at h
  split_ifs at h with h1 h2 h3 h4
  · simp at h
  · simp at h
  · simp at h
  · obtain ⟨b, hb, hbe⟩ := evaluatedBreakpoint_isSome cond_eval _ h4.2
    exact ⟨h4.1, b, hb, hbe⟩

/-- Witness for the amended claim C3 at the unverified-breakpoint state. -/
theorem claim_C3_witness :
    processTaskStop stUnverified idleThread leafTask "main.yml" 10 noEval =
      some StoppedReason.breakpointHit ∧
    (idleThread.stepping_type ≠ some "out" ∧
      ∃ b, stUnverified.get_breakpoint "main.yml" 10 = some b ∧
        evaluatedBreakpoint noEval (some b) = some b) :=
  ⟨rfl, claim_C3_amended stUnverified idleThread leafTask "main.yml" 10 noEval rfl⟩

/-- Claim C10: get_breakpoint returns None whenever no client is connected
(so a task boundary never stops with reason breakpoint while
disconnected), and when connected it returns a breakpoint only if the
breakpoint's path equals the queried path and its resolved range contains
the line, a missing resolved line or end_line imposing no lower or upper
bound. -/
theorem claim_C10 (st : AnsibleDebugger) (path : String) (line : Nat) :
    (st.connected = false → st.get_breakpoint path line = none) ∧
    (∀ b, st.get_breakpoint path line = some b →
      b.path = path ∧
      (∀ l, b.breakpoint.line = some l → l ≤ (line : Int)) ∧
      (∀ e, b.breakpoint.end_line = some e → (line : Int) ≤ e)) ∧
    (∀ (thread : AnsibleThread) (task : PTask)
        (cond_eval : String → Except Unit Bool), st.connected = false →
      processTaskStop st thread task path line cond_eval ≠
        some StoppedReason.breakpointHit) := by
  have hdisc : st.connected = false → st.get_breakpoint path line = none := by
    intro h
    unfold AnsibleDebugger.get_breakpoint
    rw [h]
    rfl
  refine ⟨hdisc, ?_, ?_⟩
  · intro b hb
    unfold AnsibleDebugger.get_breakpoint at hb
    by_cases hc : st.connected
    · rw [hc] at hb
      simp only [Bool.not_true, Bool.false_eq_true, if_false] at hb
      have hpred := List.find?_some hb
      simp only [Bool.and_eq_true, beq_iff_eq] at hpred
      refine ⟨hpred.1.1, ?_, ?_⟩
      · intro l hl
        have := hpred.1.2
        rw [hl] at this
        simpa using this
      · intro e he
        have := hpred.2
        rw [he] at this
        simpa using this
    · rw [Bool.not_eq_true] at hc
      rw [hc] at hb
      simp at hb
  · intro thread task cond_eval hc h
    have hn := hdisc hc
    simp only [processTaskStop] at h
    rw [hn] at h
    simp only [evaluatedBreakpoint] at h
    split_ifs at h with h1 h2 h3 h4
    · simp at h
    · simp at h
    · simp at h
    · simp at h4

/-- Witness for claim C10 at the freshly constructed (disconnected)
debugger state. -/
theorem claim_C10_witness :
    AnsibleDebugger.get_breakpoint { } "site.yml" 3 = none :=
  (claim_C10 { } "site.yml" 3).1 rfl

/-- Claim C9: a breakpoint condition that fails to evaluate
(AnsibleError) is treated as a false condition: the stop decision equals
the decision with no client connected (no breakpoint consulted), and in
particular the thread does not stop with reason breakpoint; the decision
is a total value, so no error reaches the caller or the client. -/
theorem claim_C9 (st : AnsibleDebugger) (thread : AnsibleThread) (task : PTask)
    (path : String) (line : Nat) (cond_eval : String → Except Unit Bool)
    (b : AnsibleLineBreakpoint) (c : String)
    (hb : st.get_breakpoint path line = some b)
    (hc : b.source_breakpoint.condition = some c) (hcs : c ≠ "")
    (heval : cond_eval c = Except.error ()) :
    processTaskStop st thread task path line cond_eval =
      processTaskStop { st with connected := false } thread task path line cond_eval ∧
    processTaskStop st thread task path line cond_eval ≠
      some StoppedReason.breakpointHit := by
  have h1 : evaluatedBreakpoint cond_eval (st.get_breakpoint path line) = none := by
    rw [hb]
    simp only [evaluatedBreakpoint]
    rw [hc]
    simp only [evaluatedCondition]
    rw [if_neg hcs, heval]
  have h2 : evaluatedBreakpoint cond_eval
      (AnsibleDebugger.get_breakpoint { st with connected := false } path line) = none := by
    rfl
  constructor
  · simp only [processTaskStop]
    rw [h1, h2]
  · simp only [processTaskStop]
    rw [h1]
    split_ifs with ha hb' hc' hd
    · simp
    · simp
    · simp
    · simp at hd
    · simp

/-- Witness for claim C9 at a conditional breakpoint whose condition
always raises AnsibleError. -/
theorem claim_C9_witness :
    stConditioned.get_breakpoint "main.yml" 10 = some bpConditioned ∧
    bpConditioned.source_breakpoint.condition = some "x > 1" ∧
    processTaskStop stConditioned idleThread leafTask "main.yml" 10 noEval ≠
      some StoppedReason.breakpointHit :=
  ⟨rfl, rfl,
    (claim_C9 stConditioned idleThread leafTask "main.yml" 10 noEval bpConditioned
      "x > 1" rfl rfl (by decide) rfl).2⟩

theorem setBreakpointsLoop_noinfo (source : Source)
    (si : Option (List (Option Nat))) (hsi : sourceInfoFalsy si = true) :
    ∀ (l : List SourceBreakpoint) (c : Nat) (e : Breakpoint),
      e ∈ (setBreakpointsLoop source false si c l).2.2 →
      e.verified = false ∧
      e.message = some "File has not been loaded by Ansible, cannot detect breakpoints yet." ∧
      (∃ sb ∈ l, e.line = some (sb.line : Int)) ∧
      e.end_line = none := by
  intro l
  induction l with
  | nil =>
    intro c e he
    simp [setBreakpointsLoop] at he
  | cons sb rest ih =>
    intro c e he
    simp only [setBreakpointsLoop, Bool.false_eq_true, if_false] at he
    rcases List.mem_cons.mp he with rfl | hmem
    · unfold makeBreakpoint
      rw [if_neg (by simp), if_pos hsi]
      exact ⟨rfl, rfl, ⟨sb, List.mem_cons_self sb rest, rfl⟩, rfl⟩
    · obtain ⟨h1, h2, ⟨sb', hsb', h3⟩, h4⟩ := ih (c + 1) e hmem
      exact ⟨h1, h2, ⟨sb', List.mem_cons_of_mem sb hsb', h3⟩, h4⟩

/-- Claim C5 counterexample: in a fresh debugger state with no line
information, the SetBreakpoints response breakpoint does not carry the
message the claim states (the code's message names Ansible and ends in
"yet.") and it does carry a line (the requested line), refuting the
claim at this concrete request. -/
theorem claim_C5_counterexample :
    ¬ (∀ e ∈ (processSetBreakpoints { } msgMain).2,
        e.verified = false ∧
        e.message = some "File has not been loaded yet, cannot detect breakpoints." ∧
        e.line = none ∧ e.end_line = none) := by
  decide

/-- Claim C5 amended: for a SetBreakpoints request whose source path has
no line-validity information (and not flagged as modified source), every
breakpoint in the response is unverified with message "File has not been
loaded by Ansible, cannot detect breakpoints yet.", carries the requested
line of one of the requested breakpoints, and has no end_line. -/
theorem claim_C5_amended (st : AnsibleDebugger) (msg : SetBreakpointsRequest)
    (hinfo : sourceInfoFalsy
      (lookupSourceInfo st.source_info (msg.source.path.getD "")) = true)
    (hmod : msg.source_modified = false) :
    ∀ e ∈ (processSetBreakpoints st msg).2,
      e.verified = false ∧
      e.message = some "File has not been loaded by Ansible, cannot detect breakpoints yet." ∧
      (∃ sb ∈ msg.breakpoints, e.line = some (sb.line : Int)) ∧
      e.end_line = none := by
  intro e he
  simp only [processSetBreakpoints] at he
  rw [hmod] at he
  exact setBreakpointsLoop_noinfo msg.source _ hinfo msg.breakpoints
    st.breakpoint_counter e he

/-- Witness for the amended claim C5 at a fresh debugger state and a
single requested breakpoint at line 10. -/
theorem claim_C5_witness :
    sourceInfoFalsy (lookupSourceInfo ({ } : AnsibleDebugger).source_info
      (msgMain.source.path.getD "")) = true ∧
    msgMain.source_modified = false ∧
    ∀ e ∈ (processSetBreakpoints { } msgMain).2,
      e.verified = false ∧
      e.message = some "File has not been loaded by Ansible, cannot detect breakpoints yet." ∧
      (∃ sb ∈ msgMain.breakpoints, e.line = some (sb.line : Int)) ∧
      e.end_line = none :=
  ⟨rfl, rfl, claim_C5_amended { } msgMain rfl rfl⟩

theorem makeBreakpoint_id (source : Source) (sm : Bool)
    (si : Option (List (Option Nat))) (c : Nat) (sb : SourceBreakpoint) :
    (makeBreakpoint source sm si c sb).id = some (c : Int) := by
  unfold makeBreakpoint
  split_ifs <;> rfl

theorem setBreakpointsLoop_persisted (source : Source) (sm : Bool)
    (si : Option (List (Option Nat))) :
    ∀ (l : List SourceBreakpoint) (c : Nat) (x : AnsibleLineBreakpoint),
      x ∈ (setBreakpointsLoop source sm si c l).2.1 →
      x.source = source ∧ c ≤ x.id := by
  intro l
  induction l with
  | nil =>
    intro c x hx
    simp [setBreakpointsLoop] at hx
  | cons sb rest ih =>
    intro c x hx
    simp only [setBreakpointsLoop] at hx
    by_cases hm : sm = true
    · rw [if_pos hm] at hx
      obtain ⟨hs, hc⟩ := ih (c + 1) x hx
      exact ⟨hs, by omega⟩
    · rw [if_neg hm] at hx
      rcases List.mem_cons.mp hx with rfl | hmem
      · exact ⟨rfl, Nat.le_refl c⟩
      · obtain ⟨hs, hc⟩ := ih (c + 1) x hmem
        exact ⟨hs, by omega⟩

theorem setBreakpointsLoop_resp_ids (source : Source) (sm : Bool)
    (si : Option (List (Option Nat))) :
    ∀ (l : List SourceBreakpoint) (c : Nat),
      (setBreakpointsLoop source sm si c l).2.2.map Breakpoint.id =
        (List.range' c l.length).map (fun n => some (n : Int)) := by
  intro l
  induction l with
  | nil => intro c; rfl
  | cons sb rest ih =>
    intro c
    simp only [setBreakpointsLoop, List.length_cons, List.range'_succ, List.map_cons]
    by_cases hm : sm = true
    · rw [if_pos hm]
      rw [List.map_cons, makeBreakpoint_id, ih (c + 1)]
      simp
    · rw [if_neg hm]
      rw [List.map_cons, makeBreakpoint_id, ih (c + 1)]
      simp

/-- Claim C6: a SetBreakpoints request for a path replaces exactly the
breakpoints registered against that exact path: breakpoints against every
other path are preserved unchanged, every previously registered
breakpoint on the path is gone from the registry, every breakpoint now
registered on the path carries a fresh id at or above the previous
counter, and the response assigns consecutive monotonically increasing
fresh ids starting at the counter. -/
theorem claim_C6 (st : AnsibleDebugger) (msg : SetBreakpointsRequest)
    (hids : ∀ b ∈ st.breakpoints, b.id < st.breakpoint_counter) :
    ((processSetBreakpoints st msg).1.breakpoints.filter
        (fun b => b.path != msg.source.path.getD "") =
      st.breakpoints.filter (fun b => b.path != msg.source.path.getD "")) ∧
    (∀ b ∈ st.breakpoints, b.path = msg.source.path.getD "" →
      b ∉ (processSetBreakpoints st msg).1.breakpoints) ∧
    (∀ b ∈ (processSetBreakpoints st msg).1.breakpoints,
      b.path = msg.source.path.getD "" → st.breakpoint_counter ≤ b.id) ∧
    ((processSetBreakpoints st msg).2.map Breakpoint.id =
      (List.range' st.breakpoint_counter msg.breakpoints.length).map
        (fun n => some (n : Int))) := by
  have hnewpath : ∀ x ∈ (setBreakpointsLoop msg.source msg.source_modified
      (lookupSourceInfo st.source_info (msg.source.path.getD ""))
      st.breakpoint_counter msg.breakpoints).2.1,
      x.path = msg.source.path.getD "" ∧ st.breakpoint_counter ≤ x.id := by
    intro x hx
    obtain ⟨hs, hc⟩ := setBreakpointsLoop_persisted _ _ _ _ _ x hx
    refine ⟨?_, hc⟩
    unfold AnsibleLineBreakpoint.path
    rw [hs]
  refine ⟨?_, ?_, ?_, ?_⟩
  · simp only [processSetBreakpoints, List.filter_append]
    rw [List.filter_filter]
    have h1 : (st.breakpoints.filter (fun b =>
        (b.path != msg.source.path.getD "") && (b.path != msg.source.path.getD ""))) =
        st.breakpoints.filter (fun b => b.path != msg.source.path.getD "") := by
      apply List.filter_congr
      intro b _
      cases hbp : (b.path != msg.source.path.getD "") <;> rfl
    rw [h1]
    have h2 : ((setBreakpointsLoop msg.source msg.source_modified
        (lookupSourceInfo st.source_info (msg.source.path.getD ""))
        st.breakpoint_counter msg.breakpoints).2.1.filter
          (fun b => b.path != msg.source.path.getD "")) = [] := by
      rw [List.filter_eq_nil_iff]
      intro x hx
      have := (hnewpath x hx).1
      simp [this]
    rw [h2, List.append_nil]
  · intro b hb hpath hmem
    simp only [processSetBreakpoints] at hmem
    rcases List.mem_append.mp hmem with hk | hn
    · have := List.of_mem_filter hk
      rw [hpath] at this
      simp at this
    · have := (hnewpath b hn).2
      have hlt := hids b hb
      omega
  · intro b hb hpath
    simp only [processSetBreakpoints] at hb
    rcases List.mem_append.mp hb with hk | hn
    · have := List.of_mem_filter hk
      rw [hpath] at this
      simp at this
    · exact (hnewpath b hn).2
  · simp only [processSetBreakpoints]
    exact setBreakpointsLoop_resp_ids _ _ _ _ _

/-- Witness for claim C6 at the single-breakpoint state and a one-entry
request on the same path. -/
theorem claim_C6_witness :
    (∀ b ∈ stUnverified.breakpoints, b.id < stUnverified.breakpoint_counter) ∧
    (processSetBreakpoints stUnverified msgMain).2.map Breakpoint.id =
      (List.range' stUnverified.breakpoint_counter msgMain.breakpoints.length).map
        (fun n => some (n : Int)) :=
  ⟨by decide, (claim_C6 stUnverified msgMain (by decide)).2.2.2⟩

theorem reResolveOne_snd_eq (V : List (Option Nat)) (path : String)
    (b : AnsibleLineBreakpoint) (e : Breakpoint) :
    (reResolveOne V path b).2 = some e ↔
      b.path = path ∧
      resolutionChanged b (registerResolve V b.source_breakpoint.line) ∧
      e = changedBreakpoint b (registerResolve V b.source_breakpoint.line) := by
  simp only [reResolveOne]
  split_ifs with hp hch
  · constructor
    · intro hsome
      exact ⟨hp, hch, (Option.some_injective _ hsome).symm⟩
    · intro h
      rw [h.2.2]
  · constructor
    · intro hsome
      exact absurd hsome (by simp)
    · intro h
      exact absurd h.2.1 hch
  · constructor
    · intro hsome
      exact absurd hsome (by simp)
    · intro h
      exact absurd h.1 hp

/-- Claim C4: after register_path_breakpoint (learn) updates the
line-validity map, every breakpoint registered on that path is
re-resolved against the new map, and a changed breakpoint event carrying
the new resolution is emitted for a breakpoint exactly when its resolved
verified/line/end_line triple differs from its stored resolution; in
particular, for a breakpoint at line 10 of a path with no prior line
information, learning line 10 as breakpointable emits exactly one changed
event with verified true, line 10 and end_line 10. -/
theorem claim_C4 :
    (∀ (st : AnsibleDebugger) (path : String) (line : Nat) (bp_type : Nat)
        (b : AnsibleLineBreakpoint),
      (st.breakpoints.map AnsibleLineBreakpoint.id).Nodup →
      b ∈ st.breakpoints → b.path = path →
      (((∃ e ∈ (register_path_breakpoint st path line bp_type).2,
          e.id = some (b.id : Int)) ↔
        resolutionChanged b
          (registerResolve (learnedLines st path line bp_type)
            b.source_breakpoint.line)) ∧
       ∀ e ∈ (register_path_breakpoint st path line bp_type).2,
         e.id = some (b.id : Int) →
         e = changedBreakpoint b
           (registerResolve (learnedLines st path line bp_type)
             b.source_breakpoint.line))) ∧
    (register_path_breakpoint stUnverified "main.yml" 10 1).2 =
      [{ id := some 1, verified := true, message := none, source := some srcMain,
         line := some 10, end_line := some 10 }] := by
  constructor
  · intro st path line bp_type b hnodup hmem hpath
    have hev : (register_path_breakpoint st path line bp_type).2 =
        st.breakpoints.filterMap
          (fun x => (reResolveOne (learnedLines st path line bp_type) path x).2) := by
      simp only [register_path_breakpoint]
      rw [List.filterMap_map]
      rfl
    rw [hev]
    constructor
    · constructor
      · rintro ⟨e, he, hid⟩
        obtain ⟨x, hx, hsome⟩ := List.mem_filterMap.mp he
        obtain ⟨hp', hch', heq⟩ := (reResolveOne_snd_eq _ _ _ _).mp hsome
        have hbid : x.id = b.id := by
          rw [heq] at hid
          simp only [changedBreakpoint, Option.some.injEq] at hid
          exact_mod_cast hid
        have hbb : x = b := List.inj_on_of_nodup_map hnodup hx hmem hbid
        rwa [hbb] at hch'
      · intro hch
        refine ⟨changedBreakpoint b
          (registerResolve (learnedLines st path line bp_type)
            b.source_breakpoint.line), ?_, rfl⟩
        exact List.mem_filterMap.mpr
          ⟨b, hmem, (reResolveOne_snd_eq _ _ _ _).mpr ⟨hpath, hch, rfl⟩⟩
    · intro e he hid
      obtain ⟨x, hx, hsome⟩ := List.mem_filterMap.mp he
      obtain ⟨hp', hch', heq⟩ := (reResolveOne_snd_eq _ _ _ _).mp hsome
      have hbid : x.id = b.id := by
        rw [heq] at hid
        simp only [changedBreakpoint, Option.some.injEq] at hid
        exact_mod_cast hid
      have hbb : x = b := List.inj_on_of_nodup_map hnodup hx hmem hbid
      rw [heq, hbb]
  · rfl

/-- Witness for claim C4 at the Scenario A state: one breakpoint at line
10 of a path with no prior line information, then learning line 10 as
breakpointable. -/
theorem claim_C4_witness :
    (stUnverified.breakpoints.map AnsibleLineBreakpoint.id).Nodup ∧
    ((∃ e ∈ (register_path_breakpoint stUnverified "main.yml" 10 1).2,
        e.id = some (bpUnverified.id : Int)) ↔
      resolutionChanged bpUnverified
        (registerResolve (learnedLines stUnverified "main.yml" 10 1)
          bpUnverified.source_breakpoint.line)) :=
  ⟨by decide,
   (claim_C4.1 stUnverified "main.yml" 10 1 bpUnverified (by decide)
     (List.mem_cons_self bpUnverified []) rfl).1⟩
